import Mathlib

/-!
Shallow embedding of the transfer-session orchestrator of
`src/src/gui.rs` (the `SendmeApp` egui application).

The Rust code is a single `update` function plus a `Drop` impl.  The
state lives in the fields of `SendmeApp` (several of them behind
`Arc<Mutex<..>>`); the operations are the button/tab click handlers and
the two background reader threads.  Each of those handler bodies and
thread bodies is embedded below as a pure function on an `AppState`
record.  A child process is abstracted by the data the GUI can observe
from it: the list of UTF-8-decodable stdout lines and the exit status;
a spawn attempt that the OS refuses is `Option.none`.
-/

namespace Sendme

/-- The `AppMode` enum of gui.rs (lines 40-44). -/
inductive AppMode
  | Send
  | Receive
deriving DecidableEq, Repr

/-- The fields of `SendmeApp` (gui.rs lines 27-38).  `Arc<Mutex<T>>`
fields are embedded as plain fields, since every claim concerns the
sequential effect of one handler or one thread body on the state.
`child_process` keeps only the presence and identity of the stored
`Child` handle. -/
structure AppState where
  mode : AppMode
  file_path : String
  ticket : String
  status : String
  output : String
  extracted_ticket : String
  is_ticket_ready : Bool
  command_running : Bool
  is_sending : Bool
  child_process : Option Nat
deriving DecidableEq, Repr

/-- The state built by `SendmeApp::default()` (gui.rs lines 63-78),
which is what `run_gui` installs. -/
def initialState : AppState :=
  { mode := AppMode.Send
    file_path := ""
    ticket := ""
    status := "Ready"
    output := ""
    extracted_ticket := ""
    is_ticket_ready := false
    command_running := false
    is_sending := false
    child_process := none }

/-- What the GUI can observe of a spawned child process: the stdout
lines that decode as valid UTF-8 (the `if let Ok(line)` filter of the
reader loops) and the exit code as `child.wait()` would report it
(`None` when no code is available). -/
structure ChildIO where
  stdoutLines : List String
  exitCode : Option Int
deriving DecidableEq, Repr

/-- How a background thread ends: normally, or by a panic that kills
the thread (and only the thread) midway. -/
inductive ThreadOutcome
  | ok
  | panicked
deriving DecidableEq, Repr

/-- The literal ticket marker of gui.rs lines 355-356. -/
def sendmeMarker : String := "sendme receive "

/-- Rust `str::trim_start_matches` on `List Char`: repeatedly removes
the pattern from the front for as long as it is a prefix.  For a
non-empty pattern every step removes at least one character, so the
length of the string is enough fuel for the recursion to be exact. -/
def trimStartMatchesAux (pat : List Char) : Nat → List Char → List Char
  | 0, s => s
  | fuel + 1, s =>
    if pat ≠ [] ∧ pat <+: s then
      trimStartMatchesAux pat fuel (s.drop pat.length)
    else s

/-- Rust `str::trim_start_matches` with a string pattern, as used at
gui.rs line 356. -/
def trimStartMatches (s pat : String) : String :=
  String.mk (trimStartMatchesAux pat.data s.data.length s.data)

/-- One iteration of the send-mode reader loop (gui.rs lines 350-360):
append the line to `output` with a `"\n"` separator, and if the line
starts with the ticket marker, store the trimmed remainder as the
extracted ticket and raise `is_ticket_ready`. -/
def processSendLine (s : AppState) (line : String) : AppState :=
  let appended := { s with output := s.output ++ "\n" ++ line }
  if sendmeMarker.data <+: line.data then
    { appended with
        extracted_ticket := trimStartMatches line sendmeMarker
        is_ticket_ready := true }
  else appended

/-- One iteration of the receive-mode reader loop (gui.rs lines
484-489): append the line to `output` with a `"\n"` separator. -/
def processReceiveLine (s : AppState) (line : String) : AppState :=
  { s with output := s.output ++ "\n" ++ line }

/-- The send-mode background thread (gui.rs lines 334-365),
parameterised by the result of `Command::spawn`.  On spawn failure the
`.expect("Failed to start sendme process")` call panics the thread, so
no further writes happen and the shared state is left exactly as the
click handler set it.  On success the child handle is stored, every
stdout line is processed, and after the stream ends `command_running`
is set to `false` (gui.rs line 364). -/
def sendThread (spawn : Option ChildIO) (handle : Nat) (s : AppState) :
    AppState × ThreadOutcome :=
  match spawn with
  | none => (s, ThreadOutcome.panicked)
  | some child =>
    let s1 := { s with child_process := some handle }
    let s2 := child.stdoutLines.foldl processSendLine s1
    ({ s2 with command_running := false }, ThreadOutcome.ok)

/-- The receive-mode background thread (gui.rs lines 472-496).  A
failed spawn is caught by the `if let Ok(mut child)` and skips straight
to the end of the thread.  On success every stdout line is appended,
then `let _ = child.wait();` obtains the exit status once and discards
it.  Either way the thread ends by setting `command_running := false`
(gui.rs line 495).  The thread never touches `status`,
`extracted_ticket`, `is_ticket_ready` or `child_process`. -/
def receiveThread (spawn : Option ChildIO) (s : AppState) : AppState :=
  match spawn with
  | none => { s with command_running := false }
  | some child =>
    let s1 := child.stdoutLines.foldl processReceiveLine s
    let _exit := child.exitCode
    { s1 with command_running := false }

/-- The Send button click handler, synchronous part (gui.rs lines
314-332): nothing happens unless the path field is non-empty; a
non-existing path only sets an error status; otherwise the status and
flags are set and the buffers cleared before the thread is spawned.
`fsExists` abstracts `Path::exists`.  The returned Bool records
whether a background send thread (and hence a process spawn attempt)
was launched. -/
def start_send (fsExists : String → Bool) (s : AppState) : AppState × Bool :=
  if s.file_path = "" then (s, false)
  else if fsExists s.file_path then
    ({ s with
        status := "📤 Sending " ++ s.file_path ++ "..."
        command_running := true
        is_ticket_ready := false
        output := ""
        extracted_ticket := "" }, true)
  else
    ({ s with
        status := "❌ Error: Path '" ++ s.file_path ++ "' does not exist" },
      false)

/-- The Receive button click handler, synchronous part (gui.rs lines
464-471): nothing happens unless the ticket field is non-empty;
otherwise the status is set, `command_running` is raised and the
receive thread is launched.  Note: `output` is not cleared here. -/
def start_receive (s : AppState) : AppState × Bool :=
  if s.ticket = "" then (s, false)
  else
    ({ s with
        status := "📥 Receiving file..."
        command_running := true }, true)

/-- The Stop button click handler (gui.rs lines 406-413): take the
stored child handle, killing it when present (the kill result is
ignored by `let _ = child.kill()`), force both flags `false` and set
the status.  The returned Bool records whether a kill was issued.
Note: `output` is not cleared here. -/
def stop (s : AppState) : AppState × Bool :=
  ({ s with
      child_process := none
      command_running := false
      is_ticket_ready := false
      status := "⏹ Transfer stopped" }, s.child_process.isSome)

/-- The per-refresh state read and mode guard (gui.rs lines 114-120):
recompute `is_sending = command_running && is_ticket_ready` and force
the mode back to Send when a sending session is active. -/
def refreshGuard (s : AppState) : AppState :=
  let s1 := { s with is_sending := s.command_running && s.is_ticket_ready }
  if s1.is_sending ∧ s1.mode = AppMode.Receive then
    { s1 with mode := AppMode.Send }
  else s1

/-- A user click on the Receive tab (gui.rs lines 145-161): the widget
is disabled while `is_sending`, and the click handler re-checks
`!self.is_sending` before switching the mode. -/
def clickReceiveTab (s : AppState) : AppState :=
  if s.is_sending = false then { s with mode := AppMode.Receive } else s

/-- Comparison definition following the claim wording for the `output`
buffer contents: the lines received so far, in arrival order, joined
with and prefixed by a newline separator (so the whole buffer reads
`"\nL1\nL2...\nLn"`). -/
def specOutput : List String → String
  | [] => ""
  | l :: ls => "\n" ++ l ++ specOutput ls

/-! Helper lemmas about the embedded operations. -/

theorem processSendLine_output (s : AppState) (l : String) :
    (processSendLine s l).output = s.output ++ "\n" ++ l := by
  unfold processSendLine
  split <;> rfl

theorem processSendLine_status (s : AppState) (l : String) :
    (processSendLine s l).status = s.status := by
  unfold processSendLine
  split <;> rfl

theorem foldl_processReceiveLine_status (ls : List String) (s : AppState) :
    (ls.foldl processReceiveLine s).status = s.status := by
  induction ls generalizing s with
  | nil => rfl
  | cons l ls ih =>
    rw [List.foldl_cons, ih]
    rfl

theorem foldl_processSendLine_output (ls : List String) (s : AppState) :
    (ls.foldl processSendLine s).output = s.output ++ specOutput ls := by
  induction ls generalizing s with
  | nil => rw [List.foldl_nil, specOutput, String.append_empty]
  | cons l ls ih =>
    rw [List.foldl_cons, ih, processSendLine_output, specOutput]
    simp only [String.append_assoc]

theorem foldl_processReceiveLine_output (ls : List String) (s : AppState) :
    (ls.foldl processReceiveLine s).output = s.output ++ specOutput ls := by
  induction ls generalizing s with
  | nil => rw [List.foldl_nil, specOutput, String.append_empty]
  | cons l ls ih =>
    rw [List.foldl_cons, ih]
    show (s.output ++ "\n" ++ l) ++ specOutput ls = s.output ++ specOutput (l :: ls)
    rw [specOutput]
    simp only [String.append_assoc]

theorem specOutput_newline (l : String) (ls : List String) :
    "\n".data <+: (specOutput (l :: ls)).data := by
  rw [specOutput, String.data_append, String.data_append]
  have h1 : "\n".data <+: "\n".data ++ l.data := List.prefix_append _ _
  have h2 : "\n".data ++ l.data <+:
      ("\n".data ++ l.data) ++ (specOutput ls).data := List.prefix_append _ _
  exact h1.trans h2

theorem trimStartMatchesAux_no_match (pat : List Char) (fuel : Nat) (s : List Char)
    (h : ¬ pat <+: s) : trimStartMatchesAux pat fuel s = s := by
  cases fuel with
  | zero => rfl
  | succ n =>
    simp only [trimStartMatchesAux]
    rw [if_neg (fun hc => h hc.2)]

theorem trimStartMatches_single (l : String)
    (h : sendmeMarker.data <+: l.data)
    (h2 : ¬ sendmeMarker.data <+: l.data.drop sendmeMarker.data.length) :
    trimStartMatches l sendmeMarker
      = String.mk (l.data.drop sendmeMarker.data.length) := by
  have hm : sendmeMarker.data ≠ [] := by decide
  have hlen : sendmeMarker.data.length ≤ l.data.length := h.length_le
  have hne : l.data.length ≠ 0 := by
    have hp : 0 < sendmeMarker.data.length := by decide
    omega
  obtain ⟨k, hk⟩ := Nat.exists_eq_succ_of_ne_zero hne
  unfold trimStartMatches
  rw [hk]
  simp only [trimStartMatchesAux]
  rw [if_pos ⟨hm, h⟩, trimStartMatchesAux_no_match _ _ _ h2]

/-! Claim theorems. -/

/-- C1 counterexample: the ticket is not write-once.  After the first
matching line `"sendme receive AAA"` the extracted ticket is `"AAA"`,
but a later matching line `"sendme receive BBB"` in the same session
changes it to `"BBB"`. -/
theorem C1_ticket_not_write_once_cex :
    (processSendLine initialState "sendme receive AAA").extracted_ticket = "AAA" ∧
    (processSendLine initialState "sendme receive AAA").is_ticket_ready = true ∧
    (processSendLine (processSendLine initialState "sendme receive AAA")
        "sendme receive BBB").extracted_ticket = "BBB" ∧
    ("BBB" : String) ≠ "AAA" := by decide

/-- C1 amended: every line beginning with the marker — later matching
lines of a session included — is appended to `output` and also
overwrites `extracted_ticket` with its own trimmed remainder while
setting `is_ticket_ready`; the extracted ticket therefore tracks the
most recent matching line, not the first. -/
theorem C1_later_match_overwrites (s : AppState) (line : String)
    (h : sendmeMarker.data <+: line.data) :
    (processSendLine s line).extracted_ticket = trimStartMatches line sendmeMarker ∧
    (processSendLine s line).is_ticket_ready = true ∧
    (processSendLine s line).output = s.output ++ "\n" ++ line := by
  unfold processSendLine
  rw [if_pos h]
  exact ⟨rfl, rfl, rfl⟩

/-- C1 witness: the amended statement applied to a session that already
holds the ticket `"AAA"` and then reads the matching line
`"sendme receive BBB"`. -/
theorem C1_later_match_overwrites_witness :
    (processSendLine
        { initialState with extracted_ticket := "AAA", is_ticket_ready := true }
        "sendme receive BBB").extracted_ticket
      = trimStartMatches "sendme receive BBB" sendmeMarker ∧
    (processSendLine
        { initialState with extracted_ticket := "AAA", is_ticket_ready := true }
        "sendme receive BBB").is_ticket_ready = true ∧
    (processSendLine
        { initialState with extracted_ticket := "AAA", is_ticket_ready := true }
        "sendme receive BBB").output
      = ({ initialState with extracted_ticket := "AAA", is_ticket_ready := true } :
          AppState).output ++ "\n" ++ "sendme receive BBB" :=
  C1_later_match_overwrites
    { initialState with extracted_ticket := "AAA", is_ticket_ready := true }
    "sendme receive BBB" (by decide)

/-- C3 counterexample: in send mode, when the output stream of the
child ends, `command_running` does not stay `true` — the reader thread
sets it to `false` (gui.rs line 364) without any `stop()` call. -/
theorem C3_running_not_preserved_cex :
    ({ initialState with command_running := true } : AppState).command_running = true ∧
    (sendThread (some { stdoutLines := [], exitCode := none }) 0
        { initialState with command_running := true }).fst.command_running = false := by
  decide

/-- C3 amended: in send mode, when the output stream of the child ends
the reader thread terminates normally and itself sets `running` to
`false`; `stop()` is not the only path by which `running` becomes
`false` in send mode. -/
theorem C3_stream_end_clears_running (c : ChildIO) (handle : Nat) (s : AppState) :
    (sendThread (some c) handle s).snd = ThreadOutcome.ok ∧
    (sendThread (some c) handle s).fst.command_running = false :=
  ⟨rfl, rfl⟩

/-- C4 counterexample: a receive session whose child exits with code 1
ends with `status` still equal to the start-time message
`"📥 Receiving file..."`; no failure message containing the exit code
is ever produced. -/
theorem C4_exit_code_not_reported_cex :
    (receiveThread (some { stdoutLines := ["transfer failed"], exitCode := some 1 })
        ((start_receive { initialState with ticket := "XYZ987" }).fst)).status
      = "📥 Receiving file..." ∧
    ¬ ("1".data <:+:
        (receiveThread (some { stdoutLines := ["transfer failed"], exitCode := some 1 })
          ((start_receive { initialState with ticket := "XYZ987" }).fst)).status.data) := by
  decide

/-- C4 amended: after the output stream closes, the receive thread
obtains the exit status once via `child.wait()` but discards it
(`let _ = ...`): `status` is never modified by the receive thread —
whatever the exit code, including an undeterminable one — and
`running` becomes `false` unconditionally. -/
theorem C4_wait_result_discarded (spawn : Option ChildIO) (s : AppState) :
    (receiveThread spawn s).status = s.status ∧
    (receiveThread spawn s).command_running = false := by
  cases spawn with
  | none => exact ⟨rfl, rfl⟩
  | some c => exact ⟨foldl_processReceiveLine_status c.stdoutLines s, rfl⟩

/-- C5 counterexample: `stop()` on an active send session does not
clear `output`; the buffer keeps its accumulated content. -/
theorem C5_stop_retains_output_cex :
    (stop { initialState with command_running := true, child_process := some 0,
                              output := "\nhello" }).fst.output = "\nhello" ∧
    ("\nhello" : String) ≠ "" := by decide

/-- C5 amended: `output` is cleared only at `start_send` (for a
non-empty, existing path); `start_receive` and `stop()` both leave
`output` unchanged, so after `stop()` on an active session `output`
retains its accumulated content. -/
theorem C5_output_clear_sites (fsExists : String → Bool) (s : AppState) :
    (stop s).fst.output = s.output ∧
    (start_receive s).fst.output = s.output ∧
    (s.file_path ≠ "" → fsExists s.file_path = true →
      (start_send fsExists s).fst.output = "") := by
  refine ⟨rfl, ?_, ?_⟩
  · unfold start_receive
    split <;> rfl
  · intro h1 h2
    unfold start_send
    rw [if_neg h1, if_pos h2]

/-- C5 witness: the amended statement applied to a state carrying
accumulated output, with a send start on the existing path `"f"`. -/
theorem C5_output_clear_sites_witness :
    (stop { initialState with output := "\nx", ticket := "t" }).fst.output
      = ({ initialState with output := "\nx", ticket := "t" } : AppState).output ∧
    (start_receive { initialState with output := "\nx", ticket := "t" }).fst.output
      = ({ initialState with output := "\nx", ticket := "t" } : AppState).output ∧
    (start_send (fun _ => true)
        { initialState with output := "\nx", file_path := "f" }).fst.output = "" := by
  have h1 := C5_output_clear_sites (fun _ => true)
    { initialState with output := "\nx", ticket := "t" }
  have h2 := C5_output_clear_sites (fun _ => true)
    { initialState with output := "\nx", file_path := "f" }
  exact ⟨h1.1, h1.2.1, h2.2.2 (by decide) (by decide)⟩

/-- C6 counterexample: for the line
`"sendme receive sendme receive ABC"`, the verbatim remainder after
the first marker is `"sendme receive ABC"`, but the code extracts
`"ABC"` — `trim_start_matches` strips the marker repeatedly, so a
remainder that itself begins with the marker is stripped again. -/
theorem C6_repeated_marker_cex :
    (sendmeMarker.data <+: "sendme receive sendme receive ABC".data) ∧
    String.mk ("sendme receive sendme receive ABC".data.drop sendmeMarker.data.length)
      = "sendme receive ABC" ∧
    (processSendLine initialState
        "sendme receive sendme receive ABC").extracted_ticket = "ABC" ∧
    ("ABC" : String) ≠ "sendme receive ABC" := by decide

/-- C6 amended: for a line beginning with the marker the extracted
ticket is the line with all leading repetitions of the marker removed;
whenever the remainder after the first marker does not itself begin
with the marker — the common case — this coincides with the verbatim
remainder of the line. -/
theorem C6_trim_semantics (s : AppState) (line : String)
    (h : sendmeMarker.data <+: line.data) :
    (processSendLine s line).extracted_ticket = trimStartMatches line sendmeMarker ∧
    (¬ sendmeMarker.data <+: line.data.drop sendmeMarker.data.length →
      (processSendLine s line).extracted_ticket
        = String.mk (line.data.drop sendmeMarker.data.length)) := by
  have hmain : (processSendLine s line).extracted_ticket
      = trimStartMatches line sendmeMarker := by
    unfold processSendLine
    rw [if_pos h]
  exact ⟨hmain, fun h2 => hmain.trans (trimStartMatches_single line h h2)⟩

/-- C6 witness: the amended statement applied to the line
`"sendme receive XYZ987"`, whose extracted ticket is exactly the
verbatim remainder `"XYZ987"`. -/
theorem C6_trim_semantics_witness :
    (processSendLine initialState "sendme receive XYZ987").extracted_ticket
      = String.mk ("sendme receive XYZ987".data.drop sendmeMarker.data.length) ∧
    String.mk ("sendme receive XYZ987".data.drop sendmeMarker.data.length) = "XYZ987" :=
  ⟨(C6_trim_semantics initialState "sendme receive XYZ987" (by decide)).2 (by decide),
    by decide⟩

/-- C2: evaluation of the code at a failing spawn.  In send mode, a
spawn refused by the OS hits `.expect("Failed to start sendme
process")`, which panics the reader thread: the error is not converted
into a `status` message (it still reads `"📤 Sending f..."`) and
`command_running` — set `true` by the click handler before the spawn —
stays `true`.  In receive mode the `Err` is caught and the thread ends
with `command_running = false`, but no `status` message is produced
either (it still reads `"📥 Receiving file..."`). -/
theorem C2_spawn_failure_eval :
    (sendThread none 0 ((start_send (fun _ => true)
        { initialState with file_path := "f" }).fst)).snd = ThreadOutcome.panicked ∧
    (sendThread none 0 ((start_send (fun _ => true)
        { initialState with file_path := "f" }).fst)).fst.command_running = true ∧
    (sendThread none 0 ((start_send (fun _ => true)
        { initialState with file_path := "f" }).fst)).fst.status = "📤 Sending f..." ∧
    (receiveThread none ((start_receive
        { initialState with ticket := "t" }).fst)).status = "📥 Receiving file..." ∧
    (receiveThread none ((start_receive
        { initialState with ticket := "t" }).fst)).command_running = false := by
  decide

/-- C7 counterexample: the empty path does not exist on the
filesystem, yet clicking Send with an empty path field is ignored
entirely — no process is spawned and the state is unchanged, so
`status` (still the default `"Ready"`) carries neither an error
indicator nor the path. -/
theorem C7_empty_path_cex :
    ((fun _ => false) : String → Bool) initialState.file_path = false ∧
    initialState.file_path = "" ∧
    (start_send (fun _ => false) initialState).snd = false ∧
    (start_send (fun _ => false) initialState).fst = initialState ∧
    initialState.status = "Ready" ∧
    ¬ ("Error".data <:+: (start_send (fun _ => false) initialState).fst.status.data) := by
  decide

/-- C7 amended: for every non-empty path string that does not exist on
the filesystem, `start_send` launches no thread (hence spawns no
process), leaves `command_running` and `child_process` unchanged (so
an Idle session stays Idle), and sets `status` to an error message
containing the literal path and the indicator `"Error"`; for the empty
path the click is ignored entirely and `status` is not updated. -/
theorem C7_validation_gate (fsExists : String → Bool) (s : AppState)
    (h1 : s.file_path ≠ "") (h2 : fsExists s.file_path = false) :
    (start_send fsExists s).snd = false ∧
    (start_send fsExists s).fst.command_running = s.command_running ∧
    (start_send fsExists s).fst.child_process = s.child_process ∧
    s.file_path.data <:+: (start_send fsExists s).fst.status.data ∧
    "Error".data <:+: (start_send fsExists s).fst.status.data := by
  have hss : start_send fsExists s
      = ({ s with
            status := "❌ Error: Path '" ++ s.file_path ++ "' does not exist" },
          false) := by
    unfold start_send
    rw [if_neg h1, if_neg (by rw [h2]; exact Bool.false_ne_true)]
  rw [hss]
  refine ⟨rfl, rfl, rfl, ?_, ?_⟩
  · show s.file_path.data <:+:
      ("❌ Error: Path '" ++ s.file_path ++ "' does not exist").data
    rw [String.data_append, String.data_append]
    exact ⟨"❌ Error: Path '".data, "' does not exist".data, rfl⟩
  · show "Error".data <:+:
      ("❌ Error: Path '" ++ s.file_path ++ "' does not exist").data
    rw [String.data_append, String.data_append]
    have h3 : "Error".data <:+: "❌ Error: Path '".data := by decide
    have h4 : "❌ Error: Path '".data <+:
        ("❌ Error: Path '".data ++ s.file_path.data) ++ "' does not exist".data := by
      rw [List.append_assoc]
      exact List.prefix_append _ _
    exact h3.trans h4.isInfix

/-- C7 witness: the amended statement applied to the non-existing path
`"/does/not/exist"` on a filesystem with no entries. -/
theorem C7_validation_gate_witness :
    (start_send (fun _ => false)
        { initialState with file_path := "/does/not/exist" }).snd = false ∧
    (start_send (fun _ => false)
        { initialState with file_path := "/does/not/exist" }).fst.command_running
      = ({ initialState with file_path := "/does/not/exist" } : AppState).command_running ∧
    (start_send (fun _ => false)
        { initialState with file_path := "/does/not/exist" }).fst.child_process
      = ({ initialState with file_path := "/does/not/exist" } : AppState).child_process ∧
    ({ initialState with file_path := "/does/not/exist" } : AppState).file_path.data <:+:
      (start_send (fun _ => false)
        { initialState with file_path := "/does/not/exist" }).fst.status.data ∧
    "Error".data <:+:
      (start_send (fun _ => false)
        { initialState with file_path := "/does/not/exist" }).fst.status.data :=
  C7_validation_gate (fun _ => false)
    { initialState with file_path := "/does/not/exist" } (by decide) (by decide)

/-- C8: `stop()` is idempotent — a second call returns exactly the
state produced by the first and issues no kill — and a kill is issued
precisely when a child handle is stored, so a call with no live handle
performs no termination and the embedding produces no error for it
(the code ignores the kill result with `let _ = child.kill()`). -/
theorem C8_stop_idempotent (s : AppState) :
    stop ((stop s).fst) = ((stop s).fst, false) ∧
    (stop s).snd = s.child_process.isSome :=
  ⟨rfl, rfl⟩

/-- C9: whenever `command_running && is_ticket_ready` holds, the
per-refresh guard recomputes `is_sending = true` and leaves the mode
at Send (forcing it back if it was Receive), and a subsequent user
click on the Receive tab changes nothing. -/
theorem C9_mode_guard (s : AppState)
    (h1 : s.command_running = true) (h2 : s.is_ticket_ready = true) :
    (refreshGuard s).is_sending = true ∧
    (refreshGuard s).mode = AppMode.Send ∧
    clickReceiveTab (refreshGuard s) = refreshGuard s := by
  cases hm : s.mode with
  | Send =>
    unfold refreshGuard clickReceiveTab
    rw [h1, h2, hm]
    exact ⟨rfl, rfl, rfl⟩
  | Receive =>
    unfold refreshGuard clickReceiveTab
    rw [h1, h2, hm]
    exact ⟨rfl, rfl, rfl⟩

/-- C9 witness: the guard applied to an active sending session whose
mode has been switched to Receive. -/
theorem C9_mode_guard_witness :
    (refreshGuard { initialState with
                    command_running := true
                    is_ticket_ready := true
                    mode := AppMode.Receive }).is_sending = true ∧
    (refreshGuard { initialState with
                    command_running := true
                    is_ticket_ready := true
                    mode := AppMode.Receive }).mode = AppMode.Send ∧
    clickReceiveTab (refreshGuard { initialState with
                    command_running := true
                    is_ticket_ready := true
                    mode := AppMode.Receive })
      = refreshGuard { initialState with
                    command_running := true
                    is_ticket_ready := true
                    mode := AppMode.Receive } :=
  C9_mode_guard { initialState with
                  command_running := true
                  is_ticket_ready := true
                  mode := AppMode.Receive } rfl rfl

/-- C10: in both modes every decoded stdout line is appended to
`output` as `format!("\x7b\x7d\n\x7b\x7d", output, line)`, i.e. as
`output ++ "\n" ++ line`; a whole session starting from a cleared
buffer yields exactly the received lines in arrival order, each
preceded by the `"\n"` separator (`specOutput`), so a non-empty
`output` always begins with a newline — the first appended line
included. -/
theorem C10_output_append (s : AppState) (ls : List String) (line : String) :
    (processSendLine s line).output = s.output ++ "\n" ++ line ∧
    (processReceiveLine s line).output = s.output ++ "\n" ++ line ∧
    (ls.foldl processSendLine s).output = s.output ++ specOutput ls ∧
    (ls.foldl processReceiveLine s).output = s.output ++ specOutput ls ∧
    (s.output = "" → ls ≠ [] →
      "\n".data <+: (ls.foldl processSendLine s).output.data) := by
  refine ⟨processSendLine_output s line, rfl, foldl_processSendLine_output ls s,
    foldl_processReceiveLine_output ls s, ?_⟩
  intro h0 hne
  rw [foldl_processSendLine_output ls s, h0]
  cases ls with
  | nil => exact absurd rfl hne
  | cons l t =>
    show "\n".data <+: (specOutput (l :: t)).data
    exact specOutput_newline l t

/-- C10 witness: a send session that reads the lines `"a"` and `"b"`
from a cleared buffer accumulates `"\na\nb"`. -/
theorem C10_output_append_witness :
    (processSendLine initialState "c").output
      = initialState.output ++ "\n" ++ "c" ∧
    (processReceiveLine initialState "c").output
      = initialState.output ++ "\n" ++ "c" ∧
    (["a", "b"].foldl processSendLine initialState).output
      = initialState.output ++ specOutput ["a", "b"] ∧
    (["a", "b"].foldl processReceiveLine initialState).output
      = initialState.output ++ specOutput ["a", "b"] ∧
    "\n".data <+: (["a", "b"].foldl processSendLine initialState).output.data := by
  have h := C10_output_append initialState ["a", "b"] "c"
  exact ⟨h.1, h.2.1, h.2.2.1, h.2.2.2.1, h.2.2.2.2 rfl (by decide)⟩

end Sendme
